import Mathlib

/-!
# Verification of `@bearei/react-message` (src/src/components/Message.tsx)

A shallow embedding of the Message component's visibility-state, timer and
event logic, together with theorems checking the specification's claims.

JS `boolean | undefined` props are `Option Bool`; the `typeof x === 'boolean'`
guard is `Option.isSome`; `a ?? b` is `Option.orElse`.  Callback invocations
(`onVisible`, `onClose`, the per-event callbacks, the shared default-event
normalization) are recorded as an `Action` trace instead of being executed.
-/

namespace ReactMessage

/-- The component's `status` state: `useState('idle')`, set once to
`'succeeded'` at the end of the first reconciliation pass. -/
inductive Status where
  | idle
  | succeeded
deriving DecidableEq, Repr

/-- Event payloads that can reach `handleResponse`:
platform events (`MouseEvent`, `TouchEvent`, `GestureResponderEvent`)
and the timer's literal `{ type: 'NodeJS.Timeout' }` object. -/
inductive Evt where
  | mouse (n : Nat)
  | touch (n : Nat)
  | gesture (n : Nat)
  | timeoutLit
deriving DecidableEq, Repr

/-- `MessageOptions<T, E>`: `{ visible?: boolean; event?: E }`.  The component
only ever stores records with a concrete boolean `visible`, so the field is
`Bool`; `event` is optional. -/
structure MessageOptions where
  visible : Bool
  event : Option Evt := none
deriving DecidableEq, Repr

/-- The interaction event names the component knows how to bind
(`bindEvenNames` in the source). -/
inductive EventType where
  | onClick
  | onPress
  | onTouchEnd
deriving DecidableEq, Repr

/-- Observable callback invocations and state mutations, in program order. -/
inductive Action where
  /-- The shared default-event normalization wrapper ran on `e`. -/
  | defaultEvent (e : Evt)
  /-- `clearTimer()` ran. -/
  | clearTimerAct
  /-- `setMessageOptions` was called, committing `o`. -/
  | setOptions (o : MessageOptions)
  /-- `onVisible?.(o)` was invoked. -/
  | notifyVisible (o : MessageOptions)
  /-- `onClose?.(o)` was invoked. -/
  | notifyClose (o : MessageOptions)
  /-- The caller's own per-event callback received the raw event `e`. -/
  | callback (e : Evt)
deriving DecidableEq, Repr

/-- `handleMessageOptionsChange`: always invokes `onVisible` with the options,
and additionally `onClose` when `options.visible` is falsy. -/
def handleMessageOptionsChange (o : MessageOptions) : List Action :=
  Action.notifyVisible o :: (if o.visible then [] else [Action.notifyClose o])

/-- The reconciliation `useEffect` body (Message.tsx lines 214-229), as a
function of the `visible` / `defaultVisible` props and the current state.
Returns the `setMessageOptions` argument when the setter was called
(`none` when the `typeof nextVisible === 'boolean'` guard failed), the new
`status`, and the notification trace. -/
def reconcileEffect (visible defaultVisible : Option Bool) (status : Status)
    (current : MessageOptions) :
    Option MessageOptions × Status × List Action :=
  let nextVisible : Option Bool :=
    if status ≠ Status.idle then visible
    else defaultVisible.orElse fun _ => visible
  let status' := if status = Status.idle then Status.succeeded else status
  match nextVisible with
  | some b =>
      let isUpdate := current.visible ≠ b ∧ status = Status.succeeded
      let nextOptions : MessageOptions := { visible := b }
      (some nextOptions, status',
        if isUpdate then handleMessageOptionsChange nextOptions else [])
  | none => (none, status', [])

/-- The message options actually held after a reconciliation pass: the
committed value when `setMessageOptions` ran, the prior value otherwise. -/
def reconcileResultOptions (visible defaultVisible : Option Bool)
    (status : Status) (current : MessageOptions) : MessageOptions :=
  (reconcileEffect visible defaultVisible status current).1.getD current

/-- The timer bookkeeping: `timers` holds the ids of the scheduled timeouts
still alive in the host environment (their scheduled delay alongside),
`timerRef` mirrors `timerRef.current`, and `nextId` supplies fresh timer
ids (`setTimeout` returns a handle never equal to a previous one). -/
structure TimerState where
  timers : List (Nat × Option Nat) := []
  timerRef : Option Nat := none
  nextId : Nat := 0
deriving DecidableEq, Repr

/-- `clearTimer`: `timerRef.current && clearInterval(timerRef.current)` -
removes the referenced handle from the live set; the ref itself is kept. -/
def clearTimer (t : TimerState) : TimerState :=
  match t.timerRef with
  | some id => { t with timers := t.timers.filter fun p => p.1 ≠ id }
  | none => t

/-- `timerRef.current = setTimeout(cb, duration)`: schedules a fresh one-shot
timeout with the given delay and stores its handle in the ref. -/
def armTimer (duration : Option Nat) (t : TimerState) : TimerState :=
  { timers := t.timers ++ [(t.nextId, duration)]
    timerRef := some t.nextId
    nextId := t.nextId + 1 }

/-- `handleResponse(e, callback?)` (Message.tsx lines 184-196): clears the
timer, flips `visible`, stores `e` in the new options, commits them, runs
`handleMessageOptionsChange`, then calls the optional per-event callback with
the raw event.  Returns the new options, the new timer state and the trace. -/
def handleResponse (e : Evt) (callbackPresent : Bool)
    (options : MessageOptions) (t : TimerState) :
    MessageOptions × TimerState × List Action :=
  let t' := clearTimer t
  let nextVisible := !options.visible
  let nextOptions : MessageOptions := { event := some e, visible := nextVisible }
  (nextOptions, t',
    Action.clearTimerAct :: Action.setOptions nextOptions ::
      handleMessageOptionsChange nextOptions ++
        (if callbackPresent then [Action.callback e] else []))

/-- Modelled from the spec: `handleDefaultEvent` from
`@bearei/react-util/lib/commonjs/event` is not part of this repository; per
the spec it is a shared default-event normalization wrapper that runs its
defensive normalization on the event first and then invokes the wrapped
handler with that event.  We record the normalization as a leading
`Action.defaultEvent` before the wrapped handler's trace. -/
def handleDefaultEvent
    (wrapped : Evt → MessageOptions × TimerState × List Action)
    (e : Evt) : MessageOptions × TimerState × List Action :=
  let r := wrapped e
  (r.1, r.2.1, Action.defaultEvent e :: r.2.2)

/-- `handleCallback(event)` (Message.tsx lines 198-212): the handler bound for
an interaction event - `handleDefaultEvent` wrapping
`e => handleResponse(e, <caller callback>)`.  `callbackPresent` states whether
the caller supplied the corresponding callback (`onClick`/`onTouchEnd`/
`onPress`). -/
def handleCallback (callbackPresent : Bool)
    (options : MessageOptions) (t : TimerState) (e : Evt) :
    MessageOptions × TimerState × List Action :=
  handleDefaultEvent (fun ev => handleResponse ev callbackPresent options t) e

/-- `ReactNode` values, as far as this development needs them: text and host
elements with children. -/
inductive Node where
  | text (s : String)
  | host (tag : String) (children : List Node)
deriving Repr

/-- The per-interaction handlers that `bindEvents` places into the props
handed to `renderMain`; each slot is present exactly when bound. -/
structure BoundEvents where
  onClick : Option (Evt → MessageOptions × TimerState × List Action) := none
  onTouchEnd : Option (Evt → MessageOptions × TimerState × List Action) := none
  onPress : Option (Evt → MessageOptions × TimerState × List Action) := none

/-- `MessageChildrenProps` as assembled in `childrenProps`
(`{...args, id, visible, defaultVisible}`): the rest props (`content`,
`type`, `closeIcon`, `closeIconVisible`) plus the generated id and the two
visibility props. -/
structure MessageChildrenProps where
  id : Nat
  visible : Option Bool := none
  defaultVisible : Option Bool := none
  content : Option Node := none
  type : Option String := none
  closeIcon : Option Node := none
  closeIconVisible : Option Bool := none
  children : Option Node := none

/-- The props handed to `renderMain`: the children props plus `ref` and the
bound event handlers. -/
structure MessageMainProps where
  base : MessageChildrenProps
  ref : Option Nat := none
  events : BoundEvents := {}

/-- The caller-facing `MessageProps` record: option fields are `some` exactly
when the caller supplied the key, so `Object.keys(props)` is recoverable.
Interaction and lifecycle callbacks are tracked by presence (their effect is
already captured in the `Action` trace); the two render props hold the
caller's render functions when supplied. -/
structure MessageProps where
  ref : Option Nat := none
  visible : Option Bool := none
  defaultVisible : Option Bool := none
  duration : Option Nat := none
  content : Option Node := none
  type : Option String := none
  closeIcon : Option Node := none
  closeIconVisible : Option Bool := none
  onVisiblePresent : Bool := false
  onClosePresent : Bool := false
  onClickPresent : Bool := false
  onTouchEndPresent : Bool := false
  onPressPresent : Bool := false
  renderMain : Option (MessageMainProps → Node) := none
  renderContainer : Option (MessageChildrenProps → Node) := none

/-- `Object.keys(props)`: the keys the caller actually supplied. -/
def propKeys (p : MessageProps) : List String :=
  (if p.ref.isSome then ["ref"] else []) ++
  (if p.visible.isSome then ["visible"] else []) ++
  (if p.defaultVisible.isSome then ["defaultVisible"] else []) ++
  (if p.duration.isSome then ["duration"] else []) ++
  (if p.content.isSome then ["content"] else []) ++
  (if p.type.isSome then ["type"] else []) ++
  (if p.closeIcon.isSome then ["closeIcon"] else []) ++
  (if p.closeIconVisible.isSome then ["closeIconVisible"] else []) ++
  (if p.onVisiblePresent then ["onVisible"] else []) ++
  (if p.onClosePresent then ["onClose"] else []) ++
  (if p.onClickPresent then ["onClick"] else []) ++
  (if p.onTouchEndPresent then ["onTouchEnd"] else []) ++
  (if p.onPressPresent then ["onPress"] else []) ++
  (if p.renderMain.isSome then ["renderMain"] else []) ++
  (if p.renderContainer.isSome then ["renderContainer"] else [])

/-- `bindEvenNames = ['onClick', 'onPress', 'onTouchEnd']`. -/
def bindEvenNames : List String := ["onClick", "onPress", "onTouchEnd"]

/-- `eventNames = Object.keys(props).filter(key => bindEvenNames.includes(key))`. -/
def eventNames (p : MessageProps) : List String :=
  (propKeys p).filter fun key => bindEvenNames.contains key

/-- Modelled from the spec: `bindEvents` from `@bearei/react-util` is not part
of this repository; per the spec it builds the handler record binding exactly
the named events, each to the handler the factory produces for that name. -/
def bindEvents (names : List String)
    (factory : EventType → Evt → MessageOptions × TimerState × List Action) :
    BoundEvents :=
  { onClick :=
      if names.contains "onClick" then some (factory EventType.onClick) else none
    onTouchEnd :=
      if names.contains "onTouchEnd" then some (factory EventType.onTouchEnd) else none
    onPress :=
      if names.contains "onPress" then some (factory EventType.onPress) else none }

/-- The handler factory as instantiated in the component: `handleCallback`
resolves the caller callback for the given event name from the props. -/
def componentFactory (p : MessageProps) (options : MessageOptions)
    (t : TimerState) : EventType → Evt → MessageOptions × TimerState × List Action
  | EventType.onClick => handleCallback p.onClickPresent options t
  | EventType.onTouchEnd => handleCallback p.onTouchEndPresent options t
  | EventType.onPress => handleCallback p.onPressPresent options t

/-- `childrenProps = {...args, id, visible, defaultVisible}`. -/
def childrenProps (p : MessageProps) (id : Nat) : MessageChildrenProps :=
  { id := id
    visible := p.visible
    defaultVisible := p.defaultVisible
    content := p.content
    type := p.type
    closeIcon := p.closeIcon
    closeIconVisible := p.closeIconVisible }

/-- The component's render tail (Message.tsx lines 242-254):
`renderMain({...childrenProps, ref, ...bindEvents(eventNames, handleCallback)})`
followed by `renderContainer({...childrenProps, children: main})`.  Both
render props are typed as required and invoked unconditionally; calling an
absent one throws a `TypeError` at runtime, modelled as `Except.error`. -/
def renderMessage (p : MessageProps) (id : Nat) (options : MessageOptions)
    (t : TimerState) : Except String Node :=
  match p.renderMain with
  | none => Except.error "renderMain is not a function"
  | some rm =>
      let main := rm
        { base := childrenProps p id
          ref := p.ref
          events := bindEvents (eventNames p) (componentFactory p options t) }
      match p.renderContainer with
      | none => Except.error "renderContainer is not a function"
      | some rc =>
          Except.ok (rc { childrenProps p id with children := some main })

/-- The component state a commit operates on: the `messageOptions` and
`status` `useState` cells, the timer bookkeeping, and the `duration` prop
feeding `setTimeout`. -/
structure CState where
  options : MessageOptions := { visible := false }
  status : Status := Status.idle
  timer : TimerState := {}
  duration : Option Nat := none
deriving DecidableEq, Repr

/-- The timer `useEffect` (Message.tsx lines 231-240) as flushed after a
commit: the cleanup `clearTimer` runs, then a fresh timeout is armed when the
message is visible and status is `succeeded`. -/
def flushTimerEffect (s : CState) : CState :=
  let t1 := clearTimer s.timer
  if s.options.visible ∧ s.status = Status.succeeded then
    { s with timer := armTimer s.duration t1 }
  else
    { s with timer := t1 }

/-- A user-interaction commit: `handleResponse` runs on the current state,
then the timer effect is flushed against the committed state. -/
def applyToggle (e : Evt) (callbackPresent : Bool) (s : CState) :
    CState × List Action :=
  let r := handleResponse e callbackPresent s.options s.timer
  (flushTimerEffect { s with options := r.1, timer := r.2.1 }, r.2.2)

/-- A timer-fire commit: the scheduled timeout `id` is consumed by the host
(one-shot), its callback `handleResponse({type: 'NodeJS.Timeout'})` runs,
then the timer effect is flushed. -/
def applyFire (id : Nat) (s : CState) : CState × List Action :=
  let t0 : TimerState :=
    { s.timer with timers := s.timer.timers.filter fun q => q.1 ≠ id }
  let r := handleResponse Evt.timeoutLit false s.options t0
  (flushTimerEffect { s with options := r.1, timer := r.2.1 }, r.2.2)

/-- A reconciliation commit with props `visible = v`, `defaultVisible = d`:
the reconciliation effect runs, then the timer effect is flushed. -/
def applyReconcile (v d : Option Bool) (s : CState) : CState × List Action :=
  let r := reconcileEffect v d s.status s.options
  (flushTimerEffect { s with options := r.1.getD s.options, status := r.2.1 },
    r.2.2)

/-- One commit of the component: a user toggle, a pending timer firing, or a
reconciliation pass (mount or props change). -/
inductive Step : CState → CState → Prop where
  | toggle (e : Evt) (cb : Bool) (s : CState) : Step s (applyToggle e cb s).1
  | fire (id : Nat) (d : Option Nat) (s : CState)
      (h : (id, d) ∈ s.timer.timers) : Step s (applyFire id s).1
  | reconcile (v d : Option Bool) (s : CState) :
      Step s (applyReconcile v d s).1

/-- The state at mount, before any effect has run. -/
def initState (duration : Option Nat) : CState := { duration := duration }

/-- States the component can reach from mount through any sequence of
commits. -/
inductive Reachable (duration : Option Nat) : CState → Prop where
  | init : Reachable duration (initState duration)
  | step {s s' : CState} : Reachable duration s → Step s s' →
      Reachable duration s'

/-- The inductive timer invariant: at most one live timeout, the ref points
at any live timeout, a live timeout implies visible-and-succeeded, and all
issued ids are below `nextId`. -/
def TimerInv (s : CState) : Prop :=
  s.timer.timers.length ≤ 1 ∧
  (∀ q ∈ s.timer.timers, s.timer.timerRef = some q.1) ∧
  (s.timer.timers ≠ [] → s.options.visible = true ∧ s.status = Status.succeeded) ∧
  (∀ q ∈ s.timer.timers, q.1 < s.timer.nextId) ∧
  (∀ id, s.timer.timerRef = some id → id < s.timer.nextId)

/-- The `onVisible` invocations recorded in a trace. -/
def visibleNotes (tr : List Action) : List Action :=
  tr.filter fun a => match a with
    | Action.notifyVisible _ => true
    | _ => false

/-- The `onClose` invocations recorded in a trace. -/
def closeNotes (tr : List Action) : List Action :=
  tr.filter fun a => match a with
    | Action.notifyClose _ => true
    | _ => false

/-- A sample `renderMain`, mirroring the repository test's
`renderMain={({...props}) => <div data-cy="message">"message"</div>}`. -/
def demoMain : MessageMainProps → Node := fun _ => Node.text "message"

/-- A sample `renderContainer` wrapping its children in a host element,
mirroring the repository test's container render prop. -/
def demoContainer : MessageChildrenProps → Node := fun cp =>
  Node.host "container" cp.children.toList

/-- Props supplying `renderMain` but omitting `renderContainer`. -/
def demoPropsNoContainer : MessageProps := { renderMain := some demoMain }

/-- Props supplying both render callbacks. -/
def demoPropsBoth : MessageProps :=
  { renderMain := some demoMain, renderContainer := some demoContainer }

theorem clearTimer_timerRef (t : TimerState) :
    (clearTimer t).timerRef = t.timerRef := by
  unfold clearTimer; cases h : t.timerRef <;> simp [h]

theorem clearTimer_nextId (t : TimerState) :
    (clearTimer t).nextId = t.nextId := by
  unfold clearTimer; cases h : t.timerRef <;> simp [h]

theorem clearTimer_timers_nil (t : TimerState)
    (h : ∀ q ∈ t.timers, t.timerRef = some q.1) :
    (clearTimer t).timers = [] := by
  unfold clearTimer
  cases href : t.timerRef with
  | none =>
      cases ht : t.timers with
      | nil => simp [ht]
      | cons q l =>
          have hq := h q (by simp [ht])
          rw [href] at hq
          exact absurd hq (by simp)
  | some id =>
      simp only [List.filter_eq_nil_iff]
      intro q hq
      have hq' := h q hq
      rw [href] at hq'
      injection hq' with h2
      simp [h2]

theorem flushTimerEffect_options (s : CState) :
    (flushTimerEffect s).options = s.options := by
  unfold flushTimerEffect; split <;> rfl

theorem flushTimerEffect_status (s : CState) :
    (flushTimerEffect s).status = s.status := by
  unfold flushTimerEffect; split <;> rfl

theorem flushTimerEffect_duration (s : CState) :
    (flushTimerEffect s).duration = s.duration := by
  unfold flushTimerEffect; split <;> rfl

theorem flushTimerEffect_timers (s : CState)
    (hcov : ∀ q ∈ s.timer.timers, s.timer.timerRef = some q.1) :
    (flushTimerEffect s).timer.timers =
      (if s.options.visible ∧ s.status = Status.succeeded then
        [(s.timer.nextId, s.duration)] else []) := by
  have hnil := clearTimer_timers_nil s.timer hcov
  unfold flushTimerEffect
  split
  case isTrue h => simp [armTimer, hnil, clearTimer_nextId, h]
  case isFalse h => simp [hnil, h]

theorem timerInv_flushTimerEffect (s : CState)
    (hcov : ∀ q ∈ s.timer.timers, s.timer.timerRef = some q.1)
    (href : ∀ id, s.timer.timerRef = some id → id < s.timer.nextId) :
    TimerInv (flushTimerEffect s) := by
  have hnil := clearTimer_timers_nil s.timer hcov
  unfold flushTimerEffect TimerInv
  split
  case isTrue h =>
      refine ⟨?_, ?_, ?_, ?_, ?_⟩ <;>
        simp_all [armTimer, hnil, clearTimer_nextId, clearTimer_timerRef]
  case isFalse h =>
      refine ⟨?_, ?_, ?_, ?_, ?_⟩ <;>
        simp_all [hnil, clearTimer_nextId, clearTimer_timerRef]

theorem applyToggle_state (e : Evt) (cb : Bool) (s : CState) :
    (applyToggle e cb s).1 =
      flushTimerEffect { s with
        options := { visible := !s.options.visible, event := some e }
        timer := clearTimer s.timer } := rfl

theorem applyFire_state (id : Nat) (s : CState) :
    (applyFire id s).1 =
      flushTimerEffect { s with
        options := { visible := !s.options.visible
                     event := some Evt.timeoutLit }
        timer := clearTimer { s.timer with
          timers := s.timer.timers.filter fun q => q.1 ≠ id } } := rfl

theorem applyReconcile_state (v d : Option Bool) (s : CState) :
    (applyReconcile v d s).1 =
      flushTimerEffect { s with
        options := (reconcileEffect v d s.status s.options).1.getD s.options
        status := (reconcileEffect v d s.status s.options).2.1 } := rfl

theorem timerInv_step {s s' : CState} (hs : Step s s') (hinv : TimerInv s) :
    TimerInv s' := by
  obtain ⟨hlen, hcov, hvis, hlt, href⟩ := hinv
  cases hs with
  | toggle e cb s =>
      rw [applyToggle_state]
      apply timerInv_flushTimerEffect
      · intro q hq
        rw [show ({ s with
            options := { visible := !s.options.visible, event := some e }
            timer := clearTimer s.timer } : CState).timer
              = clearTimer s.timer from rfl] at hq ⊢
        rw [clearTimer_timers_nil s.timer hcov] at hq
        exact absurd hq (by simp)
      · intro id hid
        rw [show ({ s with
            options := { visible := !s.options.visible, event := some e }
            timer := clearTimer s.timer } : CState).timer
              = clearTimer s.timer from rfl] at hid
        rw [clearTimer_timerRef] at hid
        rw [show ({ s with
            options := { visible := !s.options.visible, event := some e }
            timer := clearTimer s.timer } : CState).timer
              = clearTimer s.timer from rfl, clearTimer_nextId]
        exact href id hid
  | fire id d s hmem =>
      rw [applyFire_state]
      have hcov0 : ∀ q ∈ (s.timer.timers.filter fun q => q.1 ≠ id),
          s.timer.timerRef = some q.1 := by
        intro q hq
        exact hcov q (List.mem_of_mem_filter hq)
      apply timerInv_flushTimerEffect
      · intro q hq
        have hnil := clearTimer_timers_nil
          { s.timer with timers := s.timer.timers.filter fun q => q.1 ≠ id }
          hcov0
        rw [show (clearTimer { s.timer with
            timers := s.timer.timers.filter fun q => q.1 ≠ id }).timers
              = [] from hnil] at hq
        exact absurd hq (by simp)
      · intro i hid
        rw [clearTimer_timerRef] at hid
        rw [clearTimer_nextId]
        exact href i hid
  | reconcile v d s =>
      rw [applyReconcile_state]
      apply timerInv_flushTimerEffect
      · exact hcov
      · exact href

theorem timerInv_reachable (dur : Option Nat) (s : CState)
    (h : Reachable dur s) : TimerInv s := by
  induction h with
  | init => refine ⟨?_, ?_, ?_, ?_, ?_⟩ <;> simp [initState, TimerInv]
  | step hr hs ih => exact timerInv_step hs ih

theorem duration_reachable (dur : Option Nat) (s : CState)
    (h : Reachable dur s) : s.duration = dur := by
  induction h with
  | init => rfl
  | step hr hs ih =>
      cases hs with
      | toggle e cb s => rw [applyToggle_state, flushTimerEffect_duration]; exact ih
      | fire id d s hmem => rw [applyFire_state, flushTimerEffect_duration]; exact ih
      | reconcile v d s => rw [applyReconcile_state, flushTimerEffect_duration]; exact ih

/-- Claim C1 (counterexample): on the first pass with `visible = some true`
and `defaultVisible = some false`, the adopted state is `false`
(`defaultVisible ?? visible` gives `defaultVisible` priority), not the
controlled `visible = true` the claim requires. -/
theorem C1_counterexample :
    (reconcileResultOptions (some true) (some false) Status.idle
        { visible := false }).visible ≠ true := by
  decide

/-- Claim C1 (amended): on the first reconciliation pass, when at least one
of `visible` / `defaultVisible` is a boolean, the adopted state is
`defaultVisible ?? visible` - `defaultVisible` when supplied, `visible`
otherwise - committed with no `event` field; no notification fires; status
becomes `succeeded`. -/
theorem C1_first_pass (v d : Option Bool) (cur : MessageOptions)
    (hb : (Option.orElse d fun _ => v).isSome) :
    (reconcileEffect v d Status.idle cur).1 =
      some { visible := (Option.orElse d fun _ => v).get hb } ∧
    (reconcileEffect v d Status.idle cur).2.2 = [] ∧
    (reconcileEffect v d Status.idle cur).2.1 = Status.succeeded := by
  cases d with
  | some b => simp [reconcileEffect, Option.orElse]
  | none =>
      cases v with
      | some b => simp [reconcileEffect, Option.orElse]
      | none => simp [Option.orElse] at hb

/-- Witness for `C1_first_pass` at `visible = none`,
`defaultVisible = some true`. -/
theorem C1_first_pass_witness :
    (reconcileEffect none (some true) Status.idle { visible := false }).1 =
      some { visible := true } ∧
    (reconcileEffect none (some true) Status.idle { visible := false }).2.2 =
      [] ∧
    (reconcileEffect none (some true) Status.idle { visible := false }).2.1 =
      Status.succeeded :=
  C1_first_pass none (some true) { visible := false } (by decide)

/-- Claim C2: every post-activation transition - a toggle through
`handleResponse` or a controlled reconcile update - invokes `onVisible`
exactly once with the new options, and `onClose` exactly when the new
visibility is hidden; a transition to visible produces no `onClose`. -/
theorem C2_transition_notifications :
    (∀ (e : Evt) (cb : Bool) (cur : MessageOptions) (t : TimerState),
      visibleNotes (handleResponse e cb cur t).2.2 =
        [Action.notifyVisible { visible := !cur.visible, event := some e }] ∧
      closeNotes (handleResponse e cb cur t).2.2 =
        (if cur.visible then
          [Action.notifyClose { visible := false, event := some e }]
        else [])) ∧
    (∀ (b : Bool) (d : Option Bool) (cur : MessageOptions),
      cur.visible ≠ b →
      visibleNotes (reconcileEffect (some b) d Status.succeeded cur).2.2 =
        [Action.notifyVisible { visible := b }] ∧
      closeNotes (reconcileEffect (some b) d Status.succeeded cur).2.2 =
        (if b then [] else [Action.notifyClose { visible := b }])) := by
  constructor
  · intro e cb cur t
    cases h : cur.visible <;> cases cb <;>
      simp [handleResponse, handleMessageOptionsChange, visibleNotes,
        closeNotes, h]
  · intro b d cur hne
    cases hb : b <;> cases hc : cur.visible <;>
      simp_all [reconcileEffect, handleMessageOptionsChange, visibleNotes,
        closeNotes]

/-- Witness for `C2_transition_notifications`: a toggle from hidden and a
controlled reconcile update to hidden. -/
theorem C2_transition_notifications_witness :
    (visibleNotes
        (handleResponse (Evt.mouse 1) false { visible := false } {}).2.2 =
      [Action.notifyVisible { visible := true, event := some (Evt.mouse 1) }]) ∧
    (closeNotes
        (reconcileEffect (some false) none Status.succeeded
          { visible := true }).2.2 =
      [Action.notifyClose { visible := false }]) :=
  ⟨(C2_transition_notifications.1 (Evt.mouse 1) false { visible := false }
      {}).1,
   (C2_transition_notifications.2 false none { visible := true }
      (by decide)).2⟩

/-- Claim C3: a bound interaction handler first runs the shared default-event
normalization, then cancels any pending timer, flips visibility, stores the
event in the new options, commits them, fires `onVisible` (plus `onClose`
when newly hidden), and finally invokes the caller's per-event callback with
the raw event. -/
theorem C3_interaction_toggle (e : Evt) (cb : Bool) (cur : MessageOptions)
    (t : TimerState) :
    handleCallback cb cur t e =
      ({ visible := !cur.visible, event := some e }, clearTimer t,
        Action.defaultEvent e :: Action.clearTimerAct ::
          Action.setOptions { visible := !cur.visible, event := some e } ::
          Action.notifyVisible { visible := !cur.visible, event := some e } ::
          ((if cur.visible then
              [Action.notifyClose { visible := false, event := some e }]
            else []) ++
            (if cb then [Action.callback e] else []))) := by
  cases h : cur.visible <;> cases cb <;>
    simp [handleCallback, handleDefaultEvent, handleResponse,
      handleMessageOptionsChange, h]

/-- Claim C5: a post-activation reconcile pass while controlled adopts a
differing external `visible` and notifies with the fresh options, and leaves
the visibility value unchanged with no notification when it matches. -/
theorem C5_controlled_subsequent (b : Bool) (d : Option Bool)
    (cur : MessageOptions) :
    (cur.visible ≠ b →
      (reconcileEffect (some b) d Status.succeeded cur).1 =
        some { visible := b } ∧
      (reconcileEffect (some b) d Status.succeeded cur).2.2 =
        Action.notifyVisible { visible := b } ::
          (if b then [] else [Action.notifyClose { visible := b }])) ∧
    (cur.visible = b →
      (reconcileEffect (some b) d Status.succeeded cur).2.2 = [] ∧
      (reconcileResultOptions (some b) d Status.succeeded cur).visible =
        cur.visible) := by
  constructor
  · intro hne
    cases hb : b <;> cases hc : cur.visible <;>
      simp_all [reconcileEffect, handleMessageOptionsChange]
  · intro heq
    cases hb : b <;> cases hc : cur.visible <;>
      simp_all [reconcileEffect, reconcileResultOptions,
        handleMessageOptionsChange]

/-- Witness for `C5_controlled_subsequent`: an update from hidden to visible
and a no-op pass at the same value. -/
theorem C5_controlled_subsequent_witness :
    ((reconcileEffect (some true) none Status.succeeded
        { visible := false }).1 = some { visible := true } ∧
      (reconcileEffect (some true) none Status.succeeded
        { visible := false }).2.2 =
        Action.notifyVisible { visible := true } ::
          (if true then []
            else [Action.notifyClose { visible := true }])) ∧
    ((reconcileEffect (some false) none Status.succeeded
        { visible := false }).2.2 = [] ∧
      (reconcileResultOptions (some false) none Status.succeeded
        { visible := false }).visible =
        ({ visible := false } : MessageOptions).visible) :=
  ⟨(C5_controlled_subsequent true none { visible := false }).1 (by decide),
   (C5_controlled_subsequent false none { visible := false }).2 (by decide)⟩

/-- Claim C6: a reconciliation pass in which neither `visible` nor
`defaultVisible` is a boolean never calls `setMessageOptions`, leaves the
held options at their prior value, and produces no notification. -/
theorem C6_no_boolean_props (status : Status) (cur : MessageOptions) :
    (reconcileEffect none none status cur).1 = none ∧
    (reconcileEffect none none status cur).2.2 = [] ∧
    reconcileResultOptions none none status cur = cur := by
  cases status <;>
    simp [reconcileEffect, reconcileResultOptions, Option.orElse]

/-- Claim C8: two successive toggles alternate the visibility - first the
negation of the starting value, then the starting value again - and each
call carries its own single `onVisible`, with exactly one `onClose` across
the pair, attached to whichever call transitioned to hidden. -/
theorem C8_double_toggle (e1 e2 : Evt) (cb1 cb2 : Bool)
    (cur : MessageOptions) (t : TimerState) :
    (handleResponse e1 cb1 cur t).1.visible = !cur.visible ∧
    (handleResponse e2 cb2 (handleResponse e1 cb1 cur t).1
        (handleResponse e1 cb1 cur t).2.1).1.visible = cur.visible ∧
    visibleNotes (handleResponse e1 cb1 cur t).2.2 =
      [Action.notifyVisible { visible := !cur.visible, event := some e1 }] ∧
    visibleNotes (handleResponse e2 cb2 (handleResponse e1 cb1 cur t).1
        (handleResponse e1 cb1 cur t).2.1).2.2 =
      [Action.notifyVisible { visible := cur.visible, event := some e2 }] ∧
    closeNotes ((handleResponse e1 cb1 cur t).2.2 ++
        (handleResponse e2 cb2 (handleResponse e1 cb1 cur t).1
          (handleResponse e1 cb1 cur t).2.1).2.2) =
      (if cur.visible then
        [Action.notifyClose { visible := false, event := some e1 }]
      else [Action.notifyClose { visible := false, event := some e2 }]) := by
  cases h : cur.visible <;> cases cb1 <;> cases cb2 <;>
    simp [handleResponse, handleMessageOptionsChange, visibleNotes,
      closeNotes, h]

/-- Claim C4: in every reachable state at most one timer is live; a toggle
cancels any pending timer (it can never fire afterwards, only a fresh one
can); a pending timer firing auto-toggles to hidden, leaves no timer, and
notifies `onClose`; and while visible-and-succeeded the flushed timer effect
arms exactly one timeout carrying the configured duration. -/
theorem C4_single_timer :
    (∀ (dur : Option Nat) (s : CState), Reachable dur s →
      s.timer.timers.length ≤ 1) ∧
    (∀ (dur : Option Nat) (s : CState) (e : Evt) (cb : Bool)
        (q : Nat × Option Nat), Reachable dur s → q ∈ s.timer.timers →
      q ∉ (applyToggle e cb s).1.timer.timers) ∧
    (∀ (dur : Option Nat) (s : CState) (id : Nat) (d : Option Nat),
        Reachable dur s → (id, d) ∈ s.timer.timers →
      (applyFire id s).1.options.visible = false ∧
      (applyFire id s).1.timer.timers = [] ∧
      Action.notifyClose { visible := false, event := some Evt.timeoutLit }
        ∈ (applyFire id s).2) ∧
    (∀ (dur : Option Nat) (s : CState), Reachable dur s →
        s.options.visible = true → s.status = Status.succeeded →
      (flushTimerEffect s).timer.timers = [(s.timer.nextId, dur)]) := by
  refine ⟨?_, ?_, ?_, ?_⟩
  · intro dur s h
    exact (timerInv_reachable dur s h).1
  · intro dur s e cb q h hq hmem
    obtain ⟨hlen, hcov, hvis, hlt, href⟩ := timerInv_reachable dur s h
    rw [applyToggle_state] at hmem
    rw [flushTimerEffect_timers] at hmem
    · have hqlt := hlt q hq
      revert hmem
      split
      · intro hmem
        simp only [List.mem_singleton] at hmem
        rw [clearTimer_nextId] at hmem
        rw [hmem] at hqlt
        simp at hqlt
      · intro hmem
        simp at hmem
    · intro q' hq'
      rw [show ({ s with
          options := { visible := !s.options.visible, event := some e }
          timer := clearTimer s.timer } : CState).timer
            = clearTimer s.timer from rfl] at hq' ⊢
      rw [clearTimer_timers_nil s.timer hcov] at hq'
      exact absurd hq' (by simp)
  · intro dur s id d h hmem
    obtain ⟨hlen, hcov, hvis, hlt, href⟩ := timerInv_reachable dur s h
    have hne : s.timer.timers ≠ [] := by
      intro hnil; rw [hnil] at hmem; exact absurd hmem (by simp)
    obtain ⟨hv, hst⟩ := hvis hne
    have hcov0 : ∀ q ∈ (s.timer.timers.filter fun q => q.1 ≠ id),
        s.timer.timerRef = some q.1 := by
      intro q hq
      exact hcov q (List.mem_of_mem_filter hq)
    have hnil0 : (clearTimer { s.timer with
        timers := s.timer.timers.filter fun q => q.1 ≠ id }).timers = [] :=
      clearTimer_timers_nil _ hcov0
    refine ⟨?_, ?_, ?_⟩
    · rw [applyFire_state, flushTimerEffect_options]
      simp [hv]
    · rw [applyFire_state]
      rw [flushTimerEffect_timers]
      · split
        case isTrue hcond =>
            exfalso
            have : (!s.options.visible) = true := hcond.1
            rw [hv] at this
            simp at this
        case isFalse hcond => rfl
      · intro q hq
        rw [show ({ s with
            options := { visible := !s.options.visible
                         event := some Evt.timeoutLit }
            timer := clearTimer { s.timer with
              timers := s.timer.timers.filter fun q => q.1 ≠ id } } :
                CState).timer
              = clearTimer { s.timer with
                  timers := s.timer.timers.filter fun q => q.1 ≠ id }
            from rfl] at hq ⊢
        rw [hnil0] at hq
        exact absurd hq (by simp)
    · show Action.notifyClose _ ∈ (applyFire id s).2
      have : (applyFire id s).2 =
          Action.clearTimerAct ::
            Action.setOptions { visible := !s.options.visible
                                event := some Evt.timeoutLit } ::
            handleMessageOptionsChange
              { visible := !s.options.visible
                event := some Evt.timeoutLit } ++ [] := rfl
      rw [this, hv]
      simp [handleMessageOptionsChange]
  · intro dur s h hv hst
    obtain ⟨hlen, hcov, hvis, hlt, href⟩ := timerInv_reachable dur s h
    rw [flushTimerEffect_timers s hcov]
    rw [duration_reachable dur s h]
    simp [hv, hst]

/-- Witness for `C4_single_timer` at the concrete reachable state produced
by mounting with `defaultVisible = true` and `duration = 5`, which holds one
armed timer `(0, some 5)`. -/
theorem C4_single_timer_witness :
    ((applyReconcile none (some true)
        (initState (some 5))).1.timer.timers.length ≤ 1) ∧
    ((0, some 5) ∉ (applyToggle (Evt.mouse 0) false
        (applyReconcile none (some true)
          (initState (some 5))).1).1.timer.timers) ∧
    ((applyFire 0 (applyReconcile none (some true)
        (initState (some 5))).1).1.options.visible = false) ∧
    ((flushTimerEffect (applyReconcile none (some true)
        (initState (some 5))).1).timer.timers =
      [((applyReconcile none (some true)
          (initState (some 5))).1.timer.nextId, some 5)]) := by
  have hr : Reachable (some 5)
      (applyReconcile none (some true) (initState (some 5))).1 :=
    Reachable.step Reachable.init
      (Step.reconcile none (some true) (initState (some 5)))
  exact ⟨C4_single_timer.1 (some 5) _ hr,
    C4_single_timer.2.1 (some 5) _ (Evt.mouse 0) false (0, some 5) hr
      (by decide),
    (C4_single_timer.2.2.1 (some 5) _ 0 (some 5) hr (by decide)).1,
    C4_single_timer.2.2.2 (some 5) _ hr (by decide) (by decide)⟩

/-- Claim C7 (counterexample): with `renderMain` supplied but
`renderContainer` absent the component throws (`renderContainer` is invoked
unconditionally), instead of returning the main content directly; with both
absent it throws on `renderMain` instead of returning nothing. -/
theorem C7_counterexample :
    renderMessage demoPropsNoContainer 0 { visible := false } {} =
      Except.error "renderContainer is not a function" ∧
    renderMessage {} 0 { visible := false } {} =
      Except.error "renderMain is not a function" :=
  ⟨rfl, rfl⟩

/-- Claim C7 (amended): `renderMain` and `renderContainer` are required props
invoked unconditionally on every render - when both are supplied the
component returns the container output with the main output as `children`
and does not fail; when `renderMain` is absent, or `renderContainer` is
absent, the render raises a type error rather than degrading. -/
theorem C7_render_contract (p : MessageProps) (id : Nat)
    (o : MessageOptions) (t : TimerState) :
    (p.renderMain = none →
      renderMessage p id o t = Except.error "renderMain is not a function") ∧
    (∀ rm, p.renderMain = some rm → p.renderContainer = none →
      renderMessage p id o t =
        Except.error "renderContainer is not a function") ∧
    (∀ rm rc, p.renderMain = some rm → p.renderContainer = some rc →
      renderMessage p id o t =
        Except.ok (rc { childrenProps p id with
          children := some (rm
            { base := childrenProps p id
              ref := p.ref
              events := bindEvents (eventNames p)
                (componentFactory p o t) }) })) := by
  refine ⟨?_, ?_, ?_⟩
  · intro hm
    unfold renderMessage
    rw [hm]
  · intro rm hm hc
    unfold renderMessage
    rw [hm, hc]
  · intro rm rc hm hc
    unfold renderMessage
    rw [hm, hc]

/-- Witness for `C7_render_contract` at the sample render props. -/
theorem C7_render_contract_witness :
    renderMessage demoPropsBoth 0 { visible := false } {} =
      Except.ok (demoContainer { childrenProps demoPropsBoth 0 with
        children := some (demoMain
          { base := childrenProps demoPropsBoth 0
            ref := demoPropsBoth.ref
            events := bindEvents (eventNames demoPropsBoth)
              (componentFactory demoPropsBoth { visible := false } {}) }) }) :=
  (C7_render_contract demoPropsBoth 0 { visible := false } {}).2.2
    demoMain demoContainer rfl rfl

theorem mem_ite_singleton {α : Type} (a b : α) (c : Prop) [Decidable c] :
    (a ∈ if c then [b] else []) ↔ c ∧ a = b := by
  split <;> simp_all

theorem contains_eventNames (p : MessageProps) (name : String)
    (hname : name ∈ bindEvenNames) :
    (eventNames p).contains name = ((propKeys p).contains name) := by
  rw [Bool.eq_iff_iff, List.elem_iff, List.elem_iff]
  simp [eventNames, List.mem_filter, List.elem_iff, hname]

theorem contains_propKeys_onClick (p : MessageProps) :
    (propKeys p).contains "onClick" = p.onClickPresent := by
  rw [Bool.eq_iff_iff, List.elem_iff]
  simp [propKeys, mem_ite_singleton]

theorem contains_propKeys_onTouchEnd (p : MessageProps) :
    (propKeys p).contains "onTouchEnd" = p.onTouchEndPresent := by
  rw [Bool.eq_iff_iff, List.elem_iff]
  simp [propKeys, mem_ite_singleton]

theorem contains_propKeys_onPress (p : MessageProps) :
    (propKeys p).contains "onPress" = p.onPressPresent := by
  rw [Bool.eq_iff_iff, List.elem_iff]
  simp [propKeys, mem_ite_singleton]

theorem bindEvents_isSome (names : List String)
    (factory : EventType → Evt → MessageOptions × TimerState × List Action) :
    (bindEvents names factory).onClick.isSome = names.contains "onClick" ∧
    (bindEvents names factory).onTouchEnd.isSome
      = names.contains "onTouchEnd" ∧
    (bindEvents names factory).onPress.isSome = names.contains "onPress" := by
  unfold bindEvents
  refine ⟨?_, ?_, ?_⟩ <;> (simp only; split <;> simp_all)

/-- Claim C9: the handler record passed to `renderMain` binds an interaction
event exactly when that event key is present in the caller's props -
unsupplied interaction types get no handler. -/
theorem C9_bound_events (p : MessageProps) (o : MessageOptions)
    (t : TimerState) :
    ((bindEvents (eventNames p) (componentFactory p o t)).onClick.isSome
        = p.onClickPresent) ∧
    ((bindEvents (eventNames p) (componentFactory p o t)).onTouchEnd.isSome
        = p.onTouchEndPresent) ∧
    ((bindEvents (eventNames p) (componentFactory p o t)).onPress.isSome
        = p.onPressPresent) := by
  obtain ⟨h1, h2, h3⟩ :=
    bindEvents_isSome (eventNames p) (componentFactory p o t)
  refine ⟨?_, ?_, ?_⟩
  · rw [h1, contains_eventNames p "onClick" (by simp [bindEvenNames]),
      contains_propKeys_onClick]
  · rw [h2, contains_eventNames p "onTouchEnd" (by simp [bindEvenNames]),
      contains_propKeys_onTouchEnd]
  · rw [h3, contains_eventNames p "onPress" (by simp [bindEvenNames]),
      contains_propKeys_onPress]

/-- Claim C10: options committed or notified by reconciliation carry no
`event` field; a toggle through `handleResponse` stores and notifies the
triggering event; the timer's auto-hide toggle carries the literal
`{type: 'NodeJS.Timeout'}` object. -/
theorem C10_event_provenance :
    (∀ (v d : Option Bool) (st : Status) (cur o : MessageOptions),
      (reconcileEffect v d st cur).1 = some o → o.event = none) ∧
    (∀ (v d : Option Bool) (st : Status) (cur o : MessageOptions),
      (Action.notifyVisible o ∈ (reconcileEffect v d st cur).2.2 ∨
        Action.notifyClose o ∈ (reconcileEffect v d st cur).2.2) →
      o.event = none) ∧
    (∀ (e : Evt) (cb : Bool) (cur : MessageOptions) (t : TimerState),
      (handleResponse e cb cur t).1.event = some e ∧
      (∀ o, (Action.notifyVisible o ∈ (handleResponse e cb cur t).2.2 ∨
          Action.notifyClose o ∈ (handleResponse e cb cur t).2.2) →
        o.event = some e)) ∧
    (∀ (s : CState) (id : Nat),
      (applyFire id s).1.options.event = some Evt.timeoutLit) := by
  refine ⟨?_, ?_, ?_, ?_⟩
  · intro v d st cur o hset
    cases st <;> cases v <;> cases d <;>
      simp_all [reconcileEffect, Option.orElse] <;> simp [← hset]
  · intro v d st cur o hmem
    cases st <;> cases v <;> cases d <;>
      rcases hmem with hmem | hmem <;>
        simp_all [reconcileEffect, Option.orElse, handleMessageOptionsChange]
  · intro e cb cur t
    constructor
    · rfl
    · intro o hmem
      cases h : cur.visible <;> cases cb <;>
        rcases hmem with hmem | hmem <;>
          simp_all [handleResponse, handleMessageOptionsChange]
  · intro s id
    show (flushTimerEffect _).options.event = _
    rw [flushTimerEffect_options]
    rfl

/-- Witness for `C10_event_provenance` at concrete inputs. -/
theorem C10_event_provenance_witness :
    (({ visible := true } : MessageOptions).event = none) ∧
    ((handleResponse (Evt.mouse 3) false { visible := false } {}).1.event =
      some (Evt.mouse 3)) ∧
    (({ visible := true, event := some (Evt.mouse 3) } :
        MessageOptions).event = some (Evt.mouse 3)) ∧
    ((applyFire 0 (initState none)).1.options.event =
      some Evt.timeoutLit) :=
  ⟨C10_event_provenance.1 (some true) none Status.succeeded
      { visible := false } { visible := true } (by decide),
    (C10_event_provenance.2.2.1 (Evt.mouse 3) false
      { visible := false } {}).1,
    (C10_event_provenance.2.2.1 (Evt.mouse 3) false
      { visible := false } {}).2
      { visible := true, event := some (Evt.mouse 3) } (Or.inl (by decide)),
    C10_event_provenance.2.2.2 (initState none) 0⟩

end ReactMessage
